import Mathlib

/-!
Verification of the F1 analytics dashboard (src/f1-dashboard.py) against its
specification.  The Python program is shallowly embedded: pandas dataframes
become lists of records, provider calls that may raise become `Except`,
Streamlit output (charts, warnings, error banners) becomes explicit fields of
result structures, and lap-time durations become exact rationals (seconds).
-/

namespace F1

/-- A row of the session laps table.  Columns used by the dashboard:
`Driver` (the driver identifier, also the key `pick_driver` filters on),
`LapNumber`, `LapTime` (seconds, exact rational), `Position`, `Compound`,
`Stint`. -/
structure Lap where
  driver : String
  lapNumber : Nat
  lapTime : ℚ
  position : Nat
  compound : String
  stint : Nat
deriving Repr, DecidableEq

/-- Result of `session.get_driver(d)`; the dashboard only reads the
`Abbreviation` field. -/
structure DriverInfo where
  abbreviation : String
deriving Repr, DecidableEq

/-- The session object returned by the external provider.
`laps` is `none` when the object has no `laps` attribute (the
hasattr check in the source).  `getDriver` models
`session.get_driver` (raises, i.e. `none`, on unknown driver);
`driverColor` models `fastf1.plotting.get_driver_color` (may raise);
`telemetry` models `lap.get_telemetry()` on the provider (may raise). -/
structure Session where
  laps : Option (List Lap)
  drivers : List String
  getDriver : String → Option DriverInfo
  driverColor : String → Option String
  telemetry : Lap → Except String (List (ℚ × ℚ × ℚ × ℚ))

/-- Embeds `Laps.pick_driver`: the rows of one driver. -/
def pickDriver (laps : List Lap) (d : String) : List Lap :=
  laps.filter (fun l => l.driver == d)

/-- Modelled from the spec: the external provider's `Laps.pick_fastest()`
selects the single fastest lap (first row attaining the minimal lap time),
or nothing when there are no rows. -/
def pickFastest : List Lap → Option Lap
  | [] => none
  | l :: ls => some (ls.foldl (fun b x => if x.lapTime < b.lapTime then x else b) l)

/-- Reads the abbreviation field of `session.get_driver` as a fallible
computation:
a missing driver raises, which the embedding reports as `Except.error`. -/
def getAbbr (s : Session) (d : String) : Except String String :=
  match s.getDriver d with
  | some info => Except.ok info.abbreviation
  | none => Except.error ("KeyError: " ++ d)

/-! ## Season selector (F1Dashboard.__init__ / main) -/

/-- Embeds the season list: `range(2018, datetime.now().year + 1)` reversed
in place.  The current year is a parameter of the embedding. -/
def years (currentYear : Nat) : List Nat :=
  (List.range' 2018 (currentYear + 1 - 2018)).reverse

/-! ## Session loader (F1Dashboard.load_session_data) -/

/-- The external data provider: `ff1.get_session` (may raise),
`session.load()` (may raise; returns the populated session),
`ff1.get_event_schedule` (may raise; the dashboard reads the
`EventName` column, modelled as the returned list of names). -/
structure Provider where
  getSession : Nat → String → String → Except String Session
  loadSession : Session → Except String Session
  getEventSchedule : Nat → Except String (List String)

/-- One call made to the external provider while loading a session. -/
inductive ProviderCall where
  | getSession (year : Nat) (gp : String) (sessionType : String)
  | load
deriving Repr, DecidableEq

/-- Outcome of `load_session_data`: the session handed back (or `None`),
the `st.error` messages emitted, and the trace of provider calls made. -/
structure LoadResult where
  session : Option Session
  errors : List String
  calls : List ProviderCall

/-- Embeds `F1Dashboard.load_session_data`: one `get_session` then one `load()`
inside a single `try`; any exception becomes an `st.error` and `None`. -/
def loadSessionData (p : Provider) (year : Nat) (gp sessionType : String) : LoadResult :=
  match p.getSession year gp sessionType with
  | Except.error e =>
      { session := none
        errors := ["Error loading session data: " ++ e]
        calls := [ProviderCall.getSession year gp sessionType] }
  | Except.ok s0 =>
      match p.loadSession s0 with
      | Except.error e =>
          { session := none
            errors := ["Error loading session data: " ++ e]
            calls := [ProviderCall.getSession year gp sessionType, ProviderCall.load] }
      | Except.ok s =>
          { session := some s
            errors := []
            calls := [ProviderCall.getSession year gp sessionType, ProviderCall.load] }

/-! ## Event catalog (F1Dashboard.get_available_events / main) -/

/-- Embeds `F1Dashboard.get_available_events`: returns the schedule, or an empty
table on any exception; the bare `except` emits no message.  The second
component is the list of error messages shown to the user. -/
def getAvailableEvents (p : Provider) (year : Nat) : List String × List String :=
  match p.getEventSchedule year with
  | Except.ok schedule => (schedule, [])
  | Except.error _ => ([], [])

/-- The Grand-Prix control `main` builds from the schedule. -/
inductive EventWidget where
  | selectbox (options : List String)
  | textInput (default : String)
deriving Repr, DecidableEq

/-- Embeds the event control of `main`: a selectbox over the event names
when the schedule is non-empty,
otherwise a free-text input defaulting to "Monaco". -/
def eventControl (schedule : List String) : EventWidget :=
  if schedule.isEmpty then EventWidget.textInput "Monaco" else EventWidget.selectbox schedule

/-! ## Lap-time view (display_lap_times) -/

/-- One plotly line series of the lap-time chart: x = lap numbers,
y = lap times in seconds, named by the driver abbreviation. -/
structure LapSeries where
  driver : String
  name : String
  points : List (Nat × ℚ)
deriving Repr, DecidableEq

/-- One row of the fastest-laps table: abbreviation, lap time in seconds,
lap number, compound. -/
structure FastRow where
  driver : String
  lapTime : ℚ
  lapNumber : Nat
  compound : String
deriving Repr, DecidableEq

/-- The `for driver in selected_drivers` loop building the lap-time chart:
a driver with no laps contributes no series; `session.get_driver` may raise,
which aborts the whole view (`Except.error`). -/
def lapSeriesFor (s : Session) (laps : List Lap) : List String → Except String (List LapSeries)
  | [] => Except.ok []
  | d :: ds =>
      if (pickDriver laps d).isEmpty then lapSeriesFor s laps ds
      else
        match getAbbr s d with
        | Except.error e => Except.error e
        | Except.ok abbr =>
            match lapSeriesFor s laps ds with
            | Except.error e => Except.error e
            | Except.ok rest =>
                Except.ok ({ driver := d, name := abbr,
                             points := (pickDriver laps d).map (fun l => (l.lapNumber, l.lapTime)) } :: rest)

/-- The `for driver in selected_drivers` loop building `fastest_laps`:
each driver with a fastest lap contributes the dict
(Driver, LapTime, LapNumber, Compound). -/
def fastestRowsFor (s : Session) (laps : List Lap) : List String → Except String (List FastRow)
  | [] => Except.ok []
  | d :: ds =>
      match pickFastest (pickDriver laps d) with
      | none => fastestRowsFor s laps ds
      | some lap =>
          match getAbbr s d with
          | Except.error e => Except.error e
          | Except.ok abbr =>
              match fastestRowsFor s laps ds with
              | Except.error e => Except.error e
              | Except.ok rest =>
                  Except.ok ({ driver := abbr, lapTime := lap.lapTime,
                               lapNumber := lap.lapNumber, compound := lap.compound } :: rest)

/-- Insertion step of the lap-time sort on the fastest-laps table. -/
def insertByLapTime (r : FastRow) : List FastRow → List FastRow
  | [] => [r]
  | x :: xs => if r.lapTime ≤ x.lapTime then r :: x :: xs else x :: insertByLapTime r xs

/-- Embeds `fastest_df.sort_values` on the LapTime column: sort ascending
by lap time. -/
def sortByLapTime (rs : List FastRow) : List FastRow := rs.foldr insertByLapTime []

/-- Output of `display_lap_times`: warnings shown, line series of the
lap-time chart, rows of the fastest-laps table (sorted), and the number of
charts rendered. -/
structure LapTimesOut where
  warnings : List String
  series : List LapSeries
  fastestRows : List FastRow
  charts : Nat
deriving Repr, DecidableEq

/-- Embeds `display_lap_times`: guard on missing/empty laps, guard on empty
selection, then the lap-time chart and the sorted fastest-laps bar chart
(the latter only when the table is non-empty).  An uncaught lookup failure
propagates as `Except.error`. -/
def displayLapTimes (s : Session) (selectedDrivers : List String) : Except String LapTimesOut :=
  match s.laps with
  | none => Except.ok { warnings := ["No lap data available for this session."],
                        series := [], fastestRows := [], charts := 0 }
  | some laps =>
      if laps.isEmpty then
        Except.ok { warnings := ["No lap data available for this session."],
                    series := [], fastestRows := [], charts := 0 }
      else if selectedDrivers.isEmpty then
        Except.ok { warnings := ["Please select at least one driver."],
                    series := [], fastestRows := [], charts := 0 }
      else
        match lapSeriesFor s laps selectedDrivers with
        | Except.error e => Except.error e
        | Except.ok series =>
            match fastestRowsFor s laps selectedDrivers with
            | Except.error e => Except.error e
            | Except.ok rows =>
                let sorted := sortByLapTime rows
                Except.ok { warnings := [], series := series, fastestRows := sorted,
                            charts := 1 + (if sorted.isEmpty then 0 else 1) }

/-! ## Telemetry-comparison view (display_telemetry_comparison) -/

/-- One plotly line of the telemetry figure: label, line color, and the
(distance, value) points. -/
structure TelTrace where
  name : String
  color : String
  points : List (ℚ × ℚ)
deriving Repr, DecidableEq

/-- Output of `display_telemetry_comparison`: warnings, `st.error` banners,
the traces of the stacked figure, number of charts rendered, and how many
telemetry fetches were performed. -/
structure TelemetryOut where
  warnings : List String
  errors : List String
  traces : List TelTrace
  charts : Nat
  fetches : Nat
deriving Repr, DecidableEq

/-- A telemetry sample row: (Distance, Speed, Throttle, Brake). -/
abbrev TelSample := ℚ × ℚ × ℚ × ℚ

/-- Embeds `display_telemetry_comparison`: guard on missing/empty laps, guard on
fewer than two drivers, then inside a `try`: pick both fastest laps, fetch
both telemetries, and build six traces (speed, throttle, brake for each of
the two selected drivers) colored red for the first slot and blue for the
second.  Any exception becomes a single `st.error` banner and no chart. -/
def displayTelemetryComparison (s : Session) (d1 d2 : String) : TelemetryOut :=
  match s.laps with
  | none => { warnings := ["No telemetry data available for this session."],
              errors := [], traces := [], charts := 0, fetches := 0 }
  | some laps =>
      if laps.isEmpty then
        { warnings := ["No telemetry data available for this session."],
          errors := [], traces := [], charts := 0, fetches := 0 }
      else if s.drivers.length < 2 then
        { warnings := ["Need at least 2 drivers for telemetry comparison."],
          errors := [], traces := [], charts := 0, fetches := 0 }
      else
        match pickFastest (pickDriver laps d1), pickFastest (pickDriver laps d2) with
        | none, _ =>
            { warnings := [], errors := ["Error loading telemetry data: NoneType has no attribute get_telemetry"],
              traces := [], charts := 0, fetches := 0 }
        | some l1, lap2? =>
            match s.telemetry l1 with
            | Except.error e =>
                { warnings := [], errors := ["Error loading telemetry data: " ++ e],
                  traces := [], charts := 0, fetches := 1 }
            | Except.ok t1 =>
                match lap2? with
                | none =>
                    { warnings := [], errors := ["Error loading telemetry data: NoneType has no attribute get_telemetry"],
                      traces := [], charts := 0, fetches := 1 }
                | some l2 =>
                    match s.telemetry l2 with
                    | Except.error e =>
                        { warnings := [], errors := ["Error loading telemetry data: " ++ e],
                          traces := [], charts := 0, fetches := 2 }
                    | Except.ok t2 =>
                        match getAbbr s d1 with
                        | Except.error e =>
                            { warnings := [], errors := ["Error loading telemetry data: " ++ e],
                              traces := [], charts := 0, fetches := 2 }
                        | Except.ok a1 =>
                            match getAbbr s d2 with
                            | Except.error e =>
                                { warnings := [], errors := ["Error loading telemetry data: " ++ e],
                                  traces := [], charts := 0, fetches := 2 }
                            | Except.ok a2 =>
                                { warnings := [], errors := [],
                                  traces :=
                                    [ { name := a1 ++ " Speed", color := "red",
                                        points := t1.map (fun p => (p.1, p.2.1)) },
                                      { name := a2 ++ " Speed", color := "blue",
                                        points := t2.map (fun p => (p.1, p.2.1)) },
                                      { name := a1 ++ " Throttle", color := "red",
                                        points := t1.map (fun p => (p.1, p.2.2.1)) },
                                      { name := a2 ++ " Throttle", color := "blue",
                                        points := t2.map (fun p => (p.1, p.2.2.1)) },
                                      { name := a1 ++ " Brake", color := "red",
                                        points := t1.map (fun p => (p.1, p.2.2.2)) },
                                      { name := a2 ++ " Brake", color := "blue",
                                        points := t2.map (fun p => (p.1, p.2.2.2)) } ],
                                  charts := 1, fetches := 2 }

/-! ## Position-change view (display_position_changes) -/

/-- One plotly line of the position chart: the loop driver it came from,
its legend name, line color, (lap, position) points and hover strings. -/
structure PosSeries where
  drv : String
  name : String
  color : String
  points : List (Nat × Nat)
  hover : List String
deriving Repr, DecidableEq

/-- Output of `display_position_changes`. -/
structure PosOut where
  warnings : List String
  errors : List String
  series : List PosSeries
  charts : Nat
deriving Repr, DecidableEq

/-- The hover annotation built for one lap row. -/
def hoverText (n : String) (x : Lap) : String :=
  "Driver: " ++ n ++ "<br>Lap: " ++ toString x.lapNumber ++
    "<br>Position: " ++ toString x.position ++ "<br>Compound: " ++ x.compound ++
    "<br>Stint: " ++ toString x.stint

/-- The series built for one driver `d` from its non-empty lap rows
`l :: ls`: `abb` is the first row's `Driver` value; color and name come from
the `try` around the two lookups, falling back to gray and `abb` when either
raises. -/
def posSeriesOne (s : Session) (d : String) (l : Lap) (ls : List Lap) : PosSeries :=
  let abb := l.driver
  let cn : String × String :=
    match s.driverColor abb with
    | none => ("#808080", abb)
    | some c =>
        match s.getDriver d with
        | none => ("#808080", abb)
        | some info => (c, info.abbreviation)
  { drv := d, name := cn.2, color := cn.1,
    points := (l :: ls).map (fun x => (x.lapNumber, x.position)),
    hover := (l :: ls).map (fun x => hoverText cn.2 x) }

/-- The `for drv in session.drivers` loop of `display_position_changes`:
a driver with zero laps is skipped; the color/name lookup is attempted and
falls back to gray and the raw row identifier when either lookup raises. -/
def posSeriesFor (s : Session) (laps : List Lap) : List String → List PosSeries
  | [] => []
  | d :: ds =>
      match pickDriver laps d with
      | [] => posSeriesFor s laps ds
      | l :: ls => posSeriesOne s d l ls :: posSeriesFor s laps ds

/-- Embeds `display_position_changes`: guard on missing/empty laps, then one series
per driver with laps.  The surrounding `try` never fires in this embedding
because the fallible lookups are already handled per driver, so `errors`
is always empty on the main path. -/
def displayPositionChanges (s : Session) : PosOut :=
  match s.laps with
  | none => { warnings := ["No position data available for this session."],
              errors := [], series := [], charts := 0 }
  | some laps =>
      if laps.isEmpty then
        { warnings := ["No position data available for this session."],
          errors := [], series := [], charts := 0 }
      else
        { warnings := [], errors := [],
          series := posSeriesFor s laps s.drivers, charts := 1 }

/-! ## Tire-strategy view (display_tire_strategy) -/

/-- One aggregate row of the stint table. -/
structure StintRow where
  driver : String
  stint : Nat
  startLap : Nat
  endLap : Nat
  lapCount : Nat
  compound : String
deriving Repr, DecidableEq

/-- Insertion step of the ascending sort underlying pandas `groupby`
(group keys come out sorted). -/
def insertNat (n : Nat) : List Nat → List Nat
  | [] => [n]
  | x :: xs => if n ≤ x then n :: x :: xs else x :: insertNat n xs

/-- Ascending sort of the group keys. -/
def sortNat (l : List Nat) : List Nat := l.foldr insertNat []

/-- The group keys of the groupby on the Stint column: the distinct stint
identifiers,
in ascending order. -/
def stintIds (dlaps : List Lap) : List Nat :=
  sortNat (dlaps.map (fun l => l.stint)).dedup

/-- The aggregate of one group of the groupby-agg on Stint:
min/max/count of `LapNumber` and first `Compound`; `none` when the group is
empty (such a key never occurs). -/
def stintAgg (abbr : String) (stintId : Nat) (dlaps : List Lap) : Option StintRow :=
  match dlaps.filter (fun l => l.stint == stintId) with
  | [] => none
  | l :: ls =>
      some { driver := abbr, stint := stintId,
             startLap := ls.foldl (fun m x => min m x.lapNumber) l.lapNumber,
             endLap := ls.foldl (fun m x => max m x.lapNumber) l.lapNumber,
             lapCount := (l :: ls).length,
             compound := l.compound }

/-- The stint table of one driver: grouped by Stint, aggregating the lap
numbers by min, max and count and the compound by first, followed by the per-row
append into `stints_data`. -/
def driverStints (abbr : String) (dlaps : List Lap) : List StintRow :=
  (stintIds dlaps).filterMap (fun st => stintAgg abbr st dlaps)

/-- The `for driver in drivers` loop of `display_tire_strategy`:
drivers with no laps contribute nothing; `session.get_driver` may raise,
aborting the view. -/
def tireRowsFor (s : Session) (laps : List Lap) : List String → Except String (List StintRow)
  | [] => Except.ok []
  | d :: ds =>
      if (pickDriver laps d).isEmpty then tireRowsFor s laps ds
      else
        match getAbbr s d with
        | Except.error e => Except.error e
        | Except.ok abbr =>
            match tireRowsFor s laps ds with
            | Except.error e => Except.error e
            | Except.ok rest => Except.ok (driverStints abbr (pickDriver laps d) ++ rest)

/-- Output of `display_tire_strategy`: warnings, the flat stint table, and
the number of charts rendered (the scatter plot; `0` when no stint data,
a silent no-op). -/
structure TireOut where
  warnings : List String
  stintRows : List StintRow
  charts : Nat
deriving Repr, DecidableEq

/-- Embeds `display_tire_strategy`: guard on missing/empty laps, aggregate all
drivers' stints, and render plot plus summary table only when some stint
data exists. -/
def displayTireStrategy (s : Session) : Except String TireOut :=
  match s.laps with
  | none => Except.ok { warnings := ["No tire data available for this session."],
                        stintRows := [], charts := 0 }
  | some laps =>
      if laps.isEmpty then
        Except.ok { warnings := ["No tire data available for this session."],
                    stintRows := [], charts := 0 }
      else
        match tireRowsFor s laps s.drivers with
        | Except.error e => Except.error e
        | Except.ok rows =>
            Except.ok { warnings := [], stintRows := rows,
                        charts := if rows.isEmpty then 0 else 1 }

/-! ## Summary metrics (display_session_data) -/

/-- The Total Laps metric: shown (as the length of the unique LapNumber values)
only when the session has a non-empty laps table, otherwise omitted. -/
def totalLapsMetric (s : Session) : Option Nat :=
  match s.laps with
  | some laps => if laps.isEmpty then none else some ((laps.map (fun l => l.lapNumber)).dedup).length
  | none => none

/-! ## Concrete sessions and providers used to exercise the theorems -/

/-- A session whose laps table is present but empty. -/
def exEmptySession : Session :=
  { laps := some [], drivers := [], getDriver := fun _ => none,
    driverColor := fun _ => none, telemetry := fun _ => Except.error "no telemetry" }

/-- Three laps of one driver with lap times 90.2s, 88.5s, 91.0s. -/
def exFastLaps : List Lap :=
  [ { driver := "VER", lapNumber := 1, lapTime := mkRat 902 10, position := 1, compound := "Soft", stint := 1 },
    { driver := "VER", lapNumber := 2, lapTime := mkRat 885 10, position := 1, compound := "Medium", stint := 1 },
    { driver := "VER", lapNumber := 3, lapTime := mkRat 910 10, position := 1, compound := "Medium", stint := 1 } ]

/-- A session with the single driver VER and the three laps above. -/
def exFastSession : Session :=
  { laps := some exFastLaps, drivers := ["VER"],
    getDriver := fun d => if d == "VER" then some { abbreviation := "VER" } else none,
    driverColor := fun _ => none,
    telemetry := fun _ => Except.error "no telemetry" }

/-- The computed lap-time view for `exFastSession` with VER selected. -/
def exFastOut : LapTimesOut :=
  { warnings := [],
    series := [ { driver := "VER", name := "VER",
                  points := [(1, mkRat 902 10), (2, mkRat 885 10), (3, mkRat 910 10)] } ],
    fastestRows := [ { driver := "VER", lapTime := mkRat 885 10, lapNumber := 2, compound := "Medium" } ],
    charts := 2 }

/-- One driver, stint 1 on laps 1-5 (Soft) and stint 2 on laps 6-10 (Hard). -/
def exStintLaps : List Lap :=
  [ { driver := "VER", lapNumber := 1, lapTime := 92, position := 1, compound := "Soft", stint := 1 },
    { driver := "VER", lapNumber := 2, lapTime := 91, position := 1, compound := "Soft", stint := 1 },
    { driver := "VER", lapNumber := 3, lapTime := 90, position := 1, compound := "Soft", stint := 1 },
    { driver := "VER", lapNumber := 4, lapTime := 93, position := 1, compound := "Soft", stint := 1 },
    { driver := "VER", lapNumber := 5, lapTime := 94, position := 1, compound := "Soft", stint := 1 },
    { driver := "VER", lapNumber := 6, lapTime := 89, position := 1, compound := "Hard", stint := 2 },
    { driver := "VER", lapNumber := 7, lapTime := 88, position := 1, compound := "Hard", stint := 2 },
    { driver := "VER", lapNumber := 8, lapTime := 87, position := 1, compound := "Hard", stint := 2 },
    { driver := "VER", lapNumber := 9, lapTime := 86, position := 1, compound := "Hard", stint := 2 },
    { driver := "VER", lapNumber := 10, lapTime := 85, position := 1, compound := "Hard", stint := 2 } ]

/-- A session holding the two-stint example laps. -/
def exStintSession : Session :=
  { laps := some exStintLaps, drivers := ["VER"],
    getDriver := fun d => if d == "VER" then some { abbreviation := "VER" } else none,
    driverColor := fun _ => none,
    telemetry := fun _ => Except.error "no telemetry" }

/-- A session with a non-empty laps table but only one driver. -/
def exOneDriverSession : Session :=
  { laps := some exFastLaps, drivers := ["VER"],
    getDriver := fun _ => none, driverColor := fun _ => none,
    telemetry := fun _ => Except.error "no telemetry" }

/-- Laps of two drivers, two laps each. -/
def exPosLaps : List Lap :=
  [ { driver := "VER", lapNumber := 1, lapTime := 90, position := 1, compound := "Soft", stint := 1 },
    { driver := "HAM", lapNumber := 1, lapTime := 91, position := 2, compound := "Soft", stint := 1 },
    { driver := "VER", lapNumber := 2, lapTime := 89, position := 1, compound := "Soft", stint := 1 },
    { driver := "HAM", lapNumber := 2, lapTime := 92, position := 2, compound := "Soft", stint := 1 } ]

/-- Two drivers with laps — VER resolves, HAM fails both lookups — and a
third driver LEC with zero laps. -/
def exPosSession : Session :=
  { laps := some exPosLaps,
    drivers := ["VER", "HAM", "LEC"],
    getDriver := fun d => if d == "VER" then some { abbreviation := "VER" } else none,
    driverColor := fun d => if d == "VER" then some "#3671C6" else none,
    telemetry := fun _ => Except.error "no telemetry" }

/-- Two resolvable drivers with laps and always-succeeding telemetry. -/
def exTelSession : Session :=
  { laps := some exPosLaps,
    drivers := ["VER", "HAM"],
    getDriver := fun d =>
      if d == "VER" then some { abbreviation := "VER" }
      else if d == "HAM" then some { abbreviation := "HAM" } else none,
    driverColor := fun _ => none,
    telemetry := fun _ => Except.ok [(0, 280, 100, 0), (100, 310, 100, 1)] }

/-- A provider whose calls all fail. -/
def exFailProvider : Provider :=
  { getSession := fun _ _ _ => Except.error "connection refused",
    loadSession := fun s => Except.ok s,
    getEventSchedule := fun _ => Except.error "connection refused" }

end F1

namespace F1

/-! ## Theorems: season selector -/

/-- C9: the season selector offers exactly the integers from 2018 through the
current year inclusive, in strictly descending order; no other year appears. -/
theorem years_exactly_2018_to_current (currentYear y : Nat) :
    (y ∈ years currentYear ↔ 2018 ≤ y ∧ y ≤ currentYear) ∧
    (years currentYear).Pairwise (fun a b => a > b) := by
  constructor
  · simp only [years, List.mem_reverse, List.mem_range']
    constructor
    · rintro ⟨i, hi, rfl⟩
      omega
    · rintro ⟨h1, h2⟩
      exact ⟨y - 2018, by omega, by omega⟩
  · rw [years, List.pairwise_reverse]
    have h := List.pairwise_lt_range' 2018 (currentYear + 1 - 2018) 1 (by omega)
    exact h.imp (fun hab => hab)

/-- C9 witness: instantiation at a concrete current year. -/
theorem years_exactly_2018_to_current_witness :
    ((2020 ∈ years 2024 ↔ 2018 ≤ 2020 ∧ 2020 ≤ 2024) ∧
      (years 2024).Pairwise (fun a b => a > b)) :=
  years_exactly_2018_to_current 2024 2020

/-! ## Theorems: error handling of the four views and the loaders -/

/-- C3: for every session whose laps table is empty or absent, each of the
four view renderers emits its warning and returns without raising and
without producing any chart. -/
theorem views_warn_on_empty_laps (s : Session) (sel : List String) (d1 d2 : String)
    (h : s.laps = none ∨ s.laps = some []) :
    displayLapTimes s sel =
      Except.ok { warnings := ["No lap data available for this session."],
                  series := [], fastestRows := [], charts := 0 } ∧
    displayTelemetryComparison s d1 d2 =
      { warnings := ["No telemetry data available for this session."],
        errors := [], traces := [], charts := 0, fetches := 0 } ∧
    displayPositionChanges s =
      { warnings := ["No position data available for this session."],
        errors := [], series := [], charts := 0 } ∧
    displayTireStrategy s =
      Except.ok { warnings := ["No tire data available for this session."],
                  stintRows := [], charts := 0 } := by
  rcases h with h | h <;>
    exact ⟨by simp [displayLapTimes, h], by simp [displayTelemetryComparison, h],
           by simp [displayPositionChanges, h], by simp [displayTireStrategy, h]⟩

/-- C3 witness: the empty-laps session. -/
theorem views_warn_on_empty_laps_witness :
    (exEmptySession.laps = none ∨ exEmptySession.laps = some []) ∧
    (displayLapTimes exEmptySession ["VER"] =
      Except.ok { warnings := ["No lap data available for this session."],
                  series := [], fastestRows := [], charts := 0 } ∧
    displayTelemetryComparison exEmptySession "VER" "HAM" =
      { warnings := ["No telemetry data available for this session."],
        errors := [], traces := [], charts := 0, fetches := 0 } ∧
    displayPositionChanges exEmptySession =
      { warnings := ["No position data available for this session."],
        errors := [], series := [], charts := 0 } ∧
    displayTireStrategy exEmptySession =
      Except.ok { warnings := ["No tire data available for this session."],
                  stintRows := [], charts := 0 }) :=
  ⟨Or.inr rfl, views_warn_on_empty_laps exEmptySession ["VER"] "VER" "HAM" (Or.inr rfl)⟩

/-- C4: when the provider raises during retrieval or load, the session
loader emits exactly one user-visible error, hands back no session at all,
and its provider-call trace contains exactly one `get_session` attempt. -/
theorem loadSessionData_failure (p : Provider) (year : Nat) (gp st : String) :
    (∀ e, p.getSession year gp st = Except.error e →
      loadSessionData p year gp st =
        { session := none, errors := ["Error loading session data: " ++ e],
          calls := [ProviderCall.getSession year gp st] }) ∧
    (∀ s0 e, p.getSession year gp st = Except.ok s0 → p.loadSession s0 = Except.error e →
      loadSessionData p year gp st =
        { session := none, errors := ["Error loading session data: " ++ e],
          calls := [ProviderCall.getSession year gp st, ProviderCall.load] }) ∧
    (loadSessionData p year gp st).calls.count (ProviderCall.getSession year gp st) = 1 := by
  refine ⟨fun e he => by simp [loadSessionData, he], fun s0 e hs he => by simp [loadSessionData, hs, he], ?_⟩
  unfold loadSessionData
  cases hg : p.getSession year gp st with
  | error e => simp [List.count_cons, List.count_nil]
  | ok s0 =>
      cases hl : p.loadSession s0 with
      | error e => simp [hl, List.count_cons, List.count_nil]
      | ok s => simp [hl, List.count_cons, List.count_nil]

/-- C4 witness: a provider whose retrieval fails. -/
theorem loadSessionData_failure_witness :
    loadSessionData exFailProvider 2023 "Monaco" "Race" =
      { session := none, errors := ["Error loading session data: connection refused"],
        calls := [ProviderCall.getSession 2023 "Monaco" "Race"] } :=
  (loadSessionData_failure exFailProvider 2023 "Monaco" "Race").1 "connection refused" rfl

/-- C5: with a non-empty laps table but fewer than two drivers, the
telemetry view emits its warning and stops with no chart and no telemetry
fetch, whatever the selection. -/
theorem telemetry_warns_on_few_drivers (s : Session) (d1 d2 : String) (L : List Lap)
    (hl : s.laps = some L) (hL : L ≠ []) (hd : s.drivers.length < 2) :
    displayTelemetryComparison s d1 d2 =
      { warnings := ["Need at least 2 drivers for telemetry comparison."],
        errors := [], traces := [], charts := 0, fetches := 0 } := by
  have hLe : L.isEmpty = false := by
    cases L with
    | nil => exact absurd rfl hL
    | cons a as => rfl
  simp [displayTelemetryComparison, hl, hLe, hd]

/-- C5 witness: a one-driver session with laps, under an arbitrary selection. -/
theorem telemetry_warns_on_few_drivers_witness :
    exOneDriverSession.laps = some exFastLaps ∧ exFastLaps ≠ [] ∧
    exOneDriverSession.drivers.length < 2 ∧
    displayTelemetryComparison exOneDriverSession "VER" "HAM" =
      { warnings := ["Need at least 2 drivers for telemetry comparison."],
        errors := [], traces := [], charts := 0, fetches := 0 } :=
  ⟨rfl, by decide, by decide,
    telemetry_warns_on_few_drivers exOneDriverSession "VER" "HAM" exFastLaps rfl
      (by decide) (by decide)⟩

/-- C6: when the schedule call raises, the event catalog returns an empty
result and emits no error message, and the UI falls back to a free-text
event input. -/
theorem eventCatalog_silent_fallback (p : Provider) (year : Nat) (e : String)
    (h : p.getEventSchedule year = Except.error e) :
    getAvailableEvents p year = ([], []) ∧
    eventControl (getAvailableEvents p year).1 = EventWidget.textInput "Monaco" := by
  simp [getAvailableEvents, eventControl, h]

/-- C6 witness: a provider whose schedule call fails. -/
theorem eventCatalog_silent_fallback_witness :
    exFailProvider.getEventSchedule 2024 = Except.error "connection refused" ∧
    (getAvailableEvents exFailProvider 2024 = ([], []) ∧
      eventControl (getAvailableEvents exFailProvider 2024).1 = EventWidget.textInput "Monaco") :=
  ⟨rfl, eventCatalog_silent_fallback exFailProvider 2024 "connection refused" rfl⟩

/-- C10: the Total Laps metric equals the number of distinct lap-number
values when the laps table is non-empty, and is omitted when the table is
empty or absent. -/
theorem totalLaps_distinct_count (s : Session) :
    (∀ L, s.laps = some L → L ≠ [] →
      totalLapsMetric s = some ((L.map (fun l => l.lapNumber)).toFinset.card)) ∧
    ((s.laps = none ∨ s.laps = some []) → totalLapsMetric s = none) := by
  constructor
  · intro L hL hne
    have hLe : L.isEmpty = false := by
      cases L with
      | nil => exact absurd rfl hne
      | cons a as => rfl
    have hc : (L.map (fun l => l.lapNumber)).toFinset.card =
        ((L.map (fun l => l.lapNumber)).dedup).length := List.card_toFinset _
    simp [totalLapsMetric, hL, hLe, hc]
  · rintro (h | h) <;> simp [totalLapsMetric, h]

/-- C10 witness: a session with three laps over lap numbers 1, 2, 3. -/
theorem totalLaps_distinct_count_witness :
    exFastSession.laps = some exFastLaps ∧ exFastLaps ≠ [] ∧
    totalLapsMetric exFastSession =
      some ((exFastLaps.map (fun l => l.lapNumber)).toFinset.card) :=
  ⟨rfl, by decide, (totalLaps_distinct_count exFastSession).1 exFastLaps rfl (by decide)⟩

/-! ## Theorems: telemetry coloring (C8) -/

/-- A successful abbreviation lookup determines the `get_driver` result. -/
theorem getAbbr_ok (s : Session) (d a : String) (h : getAbbr s d = Except.ok a) :
    s.getDriver d = some { abbreviation := a } := by
  unfold getAbbr at h
  split at h
  · rename_i info heq
    injection h with h
    subst h
    rw [heq]
  · exact absurd h (by simp)

/-- The telemetry view either renders no trace at all, or the full
six-trace figure of the success path. -/
theorem displayTelemetry_cases (s : Session) (d1 d2 : String) :
    (displayTelemetryComparison s d1 d2).traces = [] ∨
    ∃ (a1 a2 : String) (t1 t2 : List TelSample),
      s.getDriver d1 = some { abbreviation := a1 } ∧
      s.getDriver d2 = some { abbreviation := a2 } ∧
      displayTelemetryComparison s d1 d2 =
        { warnings := [], errors := [],
          traces :=
            [ { name := a1 ++ " Speed", color := "red",
                points := t1.map (fun p => (p.1, p.2.1)) },
              { name := a2 ++ " Speed", color := "blue",
                points := t2.map (fun p => (p.1, p.2.1)) },
              { name := a1 ++ " Throttle", color := "red",
                points := t1.map (fun p => (p.1, p.2.2.1)) },
              { name := a2 ++ " Throttle", color := "blue",
                points := t2.map (fun p => (p.1, p.2.2.1)) },
              { name := a1 ++ " Brake", color := "red",
                points := t1.map (fun p => (p.1, p.2.2.2)) },
              { name := a2 ++ " Brake", color := "blue",
                points := t2.map (fun p => (p.1, p.2.2.2)) } ],
          charts := 1, fetches := 2 } := by
  unfold displayTelemetryComparison
  split
  · exact Or.inl rfl
  · split
    · exact Or.inl rfl
    · split
      · exact Or.inl rfl
      · split
        · exact Or.inl rfl
        · rename_i l1 lap2?
          split
          · exact Or.inl rfl
          · rename_i t1 _
            split
            · exact Or.inl rfl
            · rename_i l2
              split
              · exact Or.inl rfl
              · rename_i t2 _
                split
                · exact Or.inl rfl
                · rename_i a1 ha1
                  split
                  · exact Or.inl rfl
                  · rename_i a2 ha2
                    exact Or.inr ⟨a1, a2, t1, t2, getAbbr_ok s d1 a1 ha1,
                      getAbbr_ok s d2 a2 ha2, rfl⟩

/-- C8: whenever the telemetry view renders its traces, the three traces of
the first selection slot are red and the three of the second are blue, with
the colors fixed by slot position independently of which drivers were
selected. -/
theorem telemetry_colors_positional (s : Session) (d1 d2 : String)
    (h : (displayTelemetryComparison s d1 d2).traces ≠ []) :
    (displayTelemetryComparison s d1 d2).traces.map (fun t => t.color) =
      ["red", "blue", "red", "blue", "red", "blue"] ∧
    ∃ a1 a2, s.getDriver d1 = some { abbreviation := a1 } ∧
      s.getDriver d2 = some { abbreviation := a2 } ∧
      (displayTelemetryComparison s d1 d2).traces.map (fun t => t.name) =
        [a1 ++ " Speed", a2 ++ " Speed", a1 ++ " Throttle", a2 ++ " Throttle",
         a1 ++ " Brake", a2 ++ " Brake"] := by
  rcases displayTelemetry_cases s d1 d2 with hnil | ⟨a1, a2, t1, t2, h1, h2, heq⟩
  · exact absurd hnil h
  · rw [heq]
    exact ⟨rfl, a1, a2, h1, h2, rfl⟩

/-- C8 witness: a two-driver session with working telemetry. -/
theorem telemetry_colors_positional_witness :
    (displayTelemetryComparison exTelSession "VER" "HAM").traces ≠ [] ∧
    (displayTelemetryComparison exTelSession "VER" "HAM").traces.map (fun t => t.color) =
      ["red", "blue", "red", "blue", "red", "blue"] :=
  ⟨by decide, (telemetry_colors_positional exTelSession "VER" "HAM" (by decide)).1⟩

/-! ## Theorems: tire-strategy stint aggregation (C1) -/

/-- Membership through the group-key insertion step. -/
theorem mem_insertNat (n a : Nat) (l : List Nat) :
    a ∈ insertNat n l ↔ a = n ∨ a ∈ l := by
  induction l with
  | nil => simp [insertNat]
  | cons x xs ih =>
    unfold insertNat
    by_cases h : n ≤ x
    · rw [if_pos h]
      simp [List.mem_cons]
    · rw [if_neg h]
      simp only [List.mem_cons, ih]
      tauto

/-- Sorting the group keys does not change them. -/
theorem mem_sortNat (a : Nat) (l : List Nat) : a ∈ sortNat l ↔ a ∈ l := by
  induction l with
  | nil => simp [sortNat]
  | cons x xs ih =>
    show a ∈ insertNat x (sortNat xs) ↔ _
    rw [mem_insertNat, ih]
    simp [List.mem_cons]

/-- Inserting a fresh key keeps the key list duplicate-free. -/
theorem nodup_insertNat (n : Nat) (l : List Nat) (hn : n ∉ l) (hl : l.Nodup) :
    (insertNat n l).Nodup := by
  induction l with
  | nil => simp [insertNat]
  | cons x xs ih =>
    rcases List.nodup_cons.mp hl with ⟨hx, hxs⟩
    have hnx : n ≠ x := fun he => hn (he ▸ List.mem_cons_self x xs)
    have hn' : n ∉ xs := fun hm => hn (List.mem_cons_of_mem _ hm)
    unfold insertNat
    by_cases h : n ≤ x
    · rw [if_pos h]
      exact List.nodup_cons.mpr ⟨by simp [List.mem_cons, hnx, hn'], hl⟩
    · rw [if_neg h]
      refine List.nodup_cons.mpr ⟨?_, ih hn' hxs⟩
      rw [mem_insertNat]
      push_neg
      exact ⟨fun he => hnx he.symm, hx⟩

/-- Sorting keeps the group keys duplicate-free. -/
theorem nodup_sortNat (l : List Nat) (hl : l.Nodup) : (sortNat l).Nodup := by
  induction l with
  | nil => simp [sortNat]
  | cons x xs ih =>
    rcases List.nodup_cons.mp hl with ⟨hx, hxs⟩
    show (insertNat x (sortNat xs)).Nodup
    exact nodup_insertNat x (sortNat xs) (fun hm => hx ((mem_sortNat x xs).mp hm)) (ih hxs)

/-- The group keys are exactly the stint values occurring in the rows. -/
theorem mem_stintIds (st : Nat) (dlaps : List Lap) :
    st ∈ stintIds dlaps ↔ st ∈ dlaps.map (fun l => l.stint) := by
  unfold stintIds
  rw [mem_sortNat, List.mem_dedup]

/-- There are no duplicate group keys. -/
theorem nodup_stintIds (dlaps : List Lap) : (stintIds dlaps).Nodup :=
  nodup_sortNat _ (List.nodup_dedup _)

/-- The running minimum of the `LapNumber` aggregation is attained and is a
lower bound. -/
theorem foldl_min_spec (ls : List Lap) (b : Nat) :
    (ls.foldl (fun m x => min m x.lapNumber) b = b ∨
      ∃ x ∈ ls, ls.foldl (fun m x => min m x.lapNumber) b = x.lapNumber) ∧
    ls.foldl (fun m x => min m x.lapNumber) b ≤ b ∧
    ∀ x ∈ ls, ls.foldl (fun m x => min m x.lapNumber) b ≤ x.lapNumber := by
  induction ls generalizing b with
  | nil => simp
  | cons y ys ih =>
    simp only [List.foldl_cons]
    rcases ih (min b y.lapNumber) with ⟨hmem, hle, hall⟩
    refine ⟨?_, le_trans hle (min_le_left _ _), ?_⟩
    · rcases hmem with h | ⟨x, hx, hxe⟩
      · rcases min_choice b y.lapNumber with hc | hc
        · exact Or.inl (by rw [h, hc])
        · exact Or.inr ⟨y, List.mem_cons_self y ys, by rw [h, hc]⟩
      · exact Or.inr ⟨x, List.mem_cons_of_mem y hx, hxe⟩
    · intro x hx
      rcases List.mem_cons.mp hx with rfl | hx
      · exact le_trans hle (min_le_right _ _)
      · exact hall x hx

/-- The running maximum of the `LapNumber` aggregation is attained and is an
upper bound. -/
theorem foldl_max_spec (ls : List Lap) (b : Nat) :
    (ls.foldl (fun m x => max m x.lapNumber) b = b ∨
      ∃ x ∈ ls, ls.foldl (fun m x => max m x.lapNumber) b = x.lapNumber) ∧
    b ≤ ls.foldl (fun m x => max m x.lapNumber) b ∧
    ∀ x ∈ ls, x.lapNumber ≤ ls.foldl (fun m x => max m x.lapNumber) b := by
  induction ls generalizing b with
  | nil => simp
  | cons y ys ih =>
    simp only [List.foldl_cons]
    rcases ih (max b y.lapNumber) with ⟨hmem, hle, hall⟩
    refine ⟨?_, le_trans (le_max_left _ _) hle, ?_⟩
    · rcases hmem with h | ⟨x, hx, hxe⟩
      · rcases max_choice b y.lapNumber with hc | hc
        · exact Or.inl (by rw [h, hc])
        · exact Or.inr ⟨y, List.mem_cons_self y ys, by rw [h, hc]⟩
      · exact Or.inr ⟨x, List.mem_cons_of_mem y hx, hxe⟩
    · intro x hx
      rcases List.mem_cons.mp hx with rfl | hx
      · exact le_trans (le_max_right _ _) hle
      · exact hall x hx

/-- What one aggregate row of the groupby-agg on Stint satisfies: min,
max and count of the lap numbers of its group and the group's first
compound. -/
theorem stintAgg_spec (abbr : String) (st : Nat) (dlaps : List Lap) (r : StintRow)
    (h : stintAgg abbr st dlaps = some r) :
    r.driver = abbr ∧ r.stint = st ∧
    r.startLap ∈ (dlaps.filter (fun l => l.stint == st)).map (fun l => l.lapNumber) ∧
    (∀ n ∈ (dlaps.filter (fun l => l.stint == st)).map (fun l => l.lapNumber), r.startLap ≤ n) ∧
    r.endLap ∈ (dlaps.filter (fun l => l.stint == st)).map (fun l => l.lapNumber) ∧
    (∀ n ∈ (dlaps.filter (fun l => l.stint == st)).map (fun l => l.lapNumber), n ≤ r.endLap) ∧
    r.lapCount = (dlaps.filter (fun l => l.stint == st)).length ∧
    (dlaps.filter (fun l => l.stint == st)).head?.map (fun l => l.compound) = some r.compound := by
  unfold stintAgg at h
  split at h
  · cases h
  · rename_i l ls heq
    injection h with h
    subst h
    rw [heq]
    rcases foldl_min_spec ls l.lapNumber with ⟨hmmem, hmle, hmall⟩
    rcases foldl_max_spec ls l.lapNumber with ⟨hxmem, hxle, hxall⟩
    refine ⟨rfl, rfl, ?_, ?_, ?_, ?_, rfl, rfl⟩
    · simp only [List.mem_map, List.mem_cons]
      rcases hmmem with h | ⟨x, hx, hxe⟩
      · exact ⟨l, Or.inl rfl, h.symm⟩
      · exact ⟨x, Or.inr hx, hxe.symm⟩
    · intro n hn
      simp only [List.mem_map, List.mem_cons] at hn
      rcases hn with ⟨x, rfl | hx, rfl⟩
      · exact hmle
      · exact hmall x hx
    · simp only [List.mem_map, List.mem_cons]
      rcases hxmem with h | ⟨x, hx, hxe⟩
      · exact ⟨l, Or.inl rfl, h.symm⟩
      · exact ⟨x, Or.inr hx, hxe.symm⟩
    · intro n hn
      simp only [List.mem_map, List.mem_cons] at hn
      rcases hn with ⟨x, rfl | hx, rfl⟩
      · exact hxle
      · exact hxall x hx

/-- Every stint value occurring in the rows yields an aggregate row. -/
theorem stintAgg_total (abbr : String) (st : Nat) (dlaps : List Lap)
    (h : st ∈ dlaps.map (fun l => l.stint)) :
    ∃ r, stintAgg abbr st dlaps = some r := by
  rcases List.mem_map.mp h with ⟨l, hl, hst⟩
  have hmem : l ∈ dlaps.filter (fun l => l.stint == st) :=
    List.mem_filter.mpr ⟨hl, by simp [hst]⟩
  cases heq : dlaps.filter (fun l => l.stint == st) with
  | nil => rw [heq] at hmem; cases hmem
  | cons x xs =>
    refine ⟨{ driver := abbr, stint := st,
              startLap := xs.foldl (fun m y => min m y.lapNumber) x.lapNumber,
              endLap := xs.foldl (fun m y => max m y.lapNumber) x.lapNumber,
              lapCount := (x :: xs).length, compound := x.compound }, ?_⟩
    unfold stintAgg
    rw [heq]

/-- Aggregating along a key list on which the aggregate exists reproduces
the key list. -/
theorem filterMap_stintAgg_map (abbr : String) (dlaps : List Lap) (ids : List Nat)
    (htot : ∀ st ∈ ids, ∃ r, stintAgg abbr st dlaps = some r) :
    ((ids.filterMap (fun st => stintAgg abbr st dlaps)).map (fun r => r.stint)) = ids := by
  induction ids with
  | nil => rfl
  | cons x xs ih =>
    rcases htot x (List.mem_cons_self x xs) with ⟨r, hr⟩
    rw [List.filterMap_cons, hr]
    simp only [List.map_cons]
    rw [(stintAgg_spec abbr x dlaps r hr).2.1]
    rw [ih (fun st hst => htot st (List.mem_cons_of_mem x hst))]

/-- C1: for a driver with at least one lap, the tire-strategy aggregate has
exactly one row per stint identifier, whose start lap is the minimum lap
number of the stint, end lap the maximum, lap count the number of laps and
compound the first compound of the stint. -/
theorem tire_stint_aggregate (abbr : String) (dlaps : List Lap) (_hne : dlaps ≠ []) :
    ((driverStints abbr dlaps).map (fun r => r.stint)).Nodup ∧
    (∀ st, st ∈ (driverStints abbr dlaps).map (fun r => r.stint) ↔
      st ∈ dlaps.map (fun l => l.stint)) ∧
    ∀ r ∈ driverStints abbr dlaps,
      r.driver = abbr ∧
      r.startLap ∈ (dlaps.filter (fun l => l.stint == r.stint)).map (fun l => l.lapNumber) ∧
      (∀ n ∈ (dlaps.filter (fun l => l.stint == r.stint)).map (fun l => l.lapNumber),
        r.startLap ≤ n) ∧
      r.endLap ∈ (dlaps.filter (fun l => l.stint == r.stint)).map (fun l => l.lapNumber) ∧
      (∀ n ∈ (dlaps.filter (fun l => l.stint == r.stint)).map (fun l => l.lapNumber),
        n ≤ r.endLap) ∧
      r.lapCount = (dlaps.filter (fun l => l.stint == r.stint)).length ∧
      (dlaps.filter (fun l => l.stint == r.stint)).head?.map (fun l => l.compound) =
        some r.compound := by
  have htot : ∀ st ∈ stintIds dlaps, ∃ r, stintAgg abbr st dlaps = some r :=
    fun st hst => stintAgg_total abbr st dlaps ((mem_stintIds st dlaps).mp hst)
  have hmap : ((driverStints abbr dlaps).map (fun r => r.stint)) = stintIds dlaps :=
    filterMap_stintAgg_map abbr dlaps (stintIds dlaps) htot
  refine ⟨?_, ?_, ?_⟩
  · rw [hmap]
    exact nodup_stintIds dlaps
  · intro st
    rw [hmap]
    exact mem_stintIds st dlaps
  · intro r hr
    rcases List.mem_filterMap.mp hr with ⟨st, _, hagg⟩
    have hspec := stintAgg_spec abbr st dlaps r hagg
    rcases hspec with ⟨hdrv, hst, hrest⟩
    subst hst
    exact ⟨hdrv, hrest⟩

/-- C1 witness: stint 1 on laps 1-5 (Soft) and stint 2 on laps 6-10 (Hard)
produce exactly the two aggregate rows of the claim. -/
theorem tire_stint_aggregate_witness :
    exStintLaps ≠ [] ∧
    driverStints "VER" exStintLaps =
      [ { driver := "VER", stint := 1, startLap := 1, endLap := 5, lapCount := 5,
          compound := "Soft" },
        { driver := "VER", stint := 2, startLap := 6, endLap := 10, lapCount := 5,
          compound := "Hard" } ] ∧
    displayTireStrategy exStintSession =
      Except.ok { warnings := [],
                  stintRows :=
                    [ { driver := "VER", stint := 1, startLap := 1, endLap := 5,
                        lapCount := 5, compound := "Soft" },
                      { driver := "VER", stint := 2, startLap := 6, endLap := 10,
                        lapCount := 5, compound := "Hard" } ],
                  charts := 1 } ∧
    ((driverStints "VER" exStintLaps).map (fun r => r.stint)).Nodup :=
  ⟨by decide, by decide, by rfl, (tire_stint_aggregate "VER" exStintLaps (by decide)).1⟩

/-! ## Theorems: lap-time view (C2) -/

/-- The running minimum of `pick_fastest` is one of the scanned laps and is
no slower than any of them. -/
theorem foldl_fastest_spec (ls : List Lap) (b : Lap) :
    (ls.foldl (fun c x => if x.lapTime < c.lapTime then x else c) b = b ∨
      ls.foldl (fun c x => if x.lapTime < c.lapTime then x else c) b ∈ ls) ∧
    (ls.foldl (fun c x => if x.lapTime < c.lapTime then x else c) b).lapTime ≤ b.lapTime ∧
    ∀ x ∈ ls, (ls.foldl (fun c x => if x.lapTime < c.lapTime then x else c) b).lapTime ≤ x.lapTime := by
  induction ls generalizing b with
  | nil => simp
  | cons y ys ih =>
    simp only [List.foldl_cons]
    by_cases hy : y.lapTime < b.lapTime
    · rw [if_pos hy]
      rcases ih y with ⟨hmem, hle, hall⟩
      refine ⟨?_, le_trans hle (le_of_lt hy), ?_⟩
      · rcases hmem with h | h
        · exact Or.inr (by rw [h]; exact List.mem_cons_self y ys)
        · exact Or.inr (List.mem_cons_of_mem y h)
      · intro x hx
        rcases List.mem_cons.mp hx with rfl | hx
        · exact hle
        · exact hall x hx
    · rw [if_neg hy]
      rcases ih b with ⟨hmem, hle, hall⟩
      refine ⟨?_, hle, ?_⟩
      · rcases hmem with h | h
        · exact Or.inl h
        · exact Or.inr (List.mem_cons_of_mem y h)
      · intro x hx
        rcases List.mem_cons.mp hx with rfl | hx
        · exact le_trans hle (not_lt.mp hy)
        · exact hall x hx

/-- Embeds the fact that `pick_fastest` returns a lap of the list that no
other lap beats. -/
theorem pickFastest_spec (l : List Lap) (lap : Lap) (h : pickFastest l = some lap) :
    lap ∈ l ∧ ∀ x ∈ l, lap.lapTime ≤ x.lapTime := by
  cases l with
  | nil => cases h
  | cons b ls =>
    unfold pickFastest at h
    injection h with h
    subst h
    rcases foldl_fastest_spec ls b with ⟨hmem, hle, hall⟩
    constructor
    · rcases hmem with h | h
      · rw [h]
        exact List.mem_cons_self b ls
      · exact List.mem_cons_of_mem b h
    · intro x hx
      rcases List.mem_cons.mp hx with rfl | hx
      · exact hle
      · exact hall x hx

/-- Membership through the insertion step of the lap-time sort. -/
theorem mem_insertByLapTime (r a : FastRow) (l : List FastRow) :
    a ∈ insertByLapTime r l ↔ a = r ∨ a ∈ l := by
  induction l with
  | nil => simp [insertByLapTime]
  | cons x xs ih =>
    unfold insertByLapTime
    by_cases h : r.lapTime ≤ x.lapTime
    · rw [if_pos h]
      simp [List.mem_cons]
    · rw [if_neg h]
      simp only [List.mem_cons, ih]
      tauto

/-- The lap-time sort does not change the rows. -/
theorem mem_sortByLapTime (a : FastRow) (rs : List FastRow) :
    a ∈ sortByLapTime rs ↔ a ∈ rs := by
  induction rs with
  | nil => simp [sortByLapTime]
  | cons x xs ih =>
    show a ∈ insertByLapTime x (sortByLapTime xs) ↔ _
    rw [mem_insertByLapTime, ih]
    simp [List.mem_cons]

/-- Inserting into an ascending list keeps it ascending. -/
theorem pairwise_insertByLapTime (r : FastRow) (l : List FastRow)
    (h : l.Pairwise (fun a b => a.lapTime ≤ b.lapTime)) :
    (insertByLapTime r l).Pairwise (fun a b => a.lapTime ≤ b.lapTime) := by
  induction l with
  | nil => simp [insertByLapTime]
  | cons x xs ih =>
    rcases List.pairwise_cons.mp h with ⟨hx, hxs⟩
    unfold insertByLapTime
    by_cases hle : r.lapTime ≤ x.lapTime
    · rw [if_pos hle]
      refine List.Pairwise.cons ?_ h
      intro b hb
      rcases List.mem_cons.mp hb with rfl | hb
      · exact hle
      · exact le_trans hle (hx b hb)
    · rw [if_neg hle]
      refine List.Pairwise.cons ?_ (ih hxs)
      intro b hb
      rcases (mem_insertByLapTime r b xs).mp hb with rfl | hb
      · exact le_of_not_le hle
      · exact hx b hb

/-- The fastest-laps table comes out ascending in lap time. -/
theorem sortByLapTime_sorted (rs : List FastRow) :
    (sortByLapTime rs).Pairwise (fun a b => a.lapTime ≤ b.lapTime) := by
  induction rs with
  | nil => simp [sortByLapTime]
  | cons x xs ih => exact pairwise_insertByLapTime x (sortByLapTime xs) ih

/-- Every selected driver whose fastest lap exists contributes its row to
the `fastest_laps` accumulator. -/
theorem fastestRowsFor_mem (s : Session) (laps : List Lap) (sel : List String)
    (rows : List FastRow) (h : fastestRowsFor s laps sel = Except.ok rows)
    (d : String) (hd : d ∈ sel) (lap : Lap)
    (hf : pickFastest (pickDriver laps d) = some lap) :
    ∃ a, s.getDriver d = some { abbreviation := a } ∧
      ({ driver := a, lapTime := lap.lapTime, lapNumber := lap.lapNumber,
         compound := lap.compound } : FastRow) ∈ rows := by
  induction sel generalizing rows with
  | nil => cases hd
  | cons x xs ih =>
    unfold fastestRowsFor at h
    split at h
    · rename_i heq
      rcases List.mem_cons.mp hd with rfl | hdm
      · rw [heq] at hf
        cases hf
      · exact ih rows h hdm
    · rename_i lap' heq
      split at h
      · cases h
      · rename_i a' ha
        split at h
        · cases h
        · rename_i rest hr
          injection h with h
          subst h
          rcases List.mem_cons.mp hd with rfl | hdm
          · rw [heq] at hf
            injection hf with hf
            subst hf
            exact ⟨a', getAbbr_ok s d a' ha, List.mem_cons_self _ _⟩
          · rcases ih rest hr hdm with ⟨a, hga, hmem⟩
            exact ⟨a, hga, List.mem_cons_of_mem _ hmem⟩

/-- C2: on the main path of the lap-time view, the fastest-laps table holds,
for every selected driver with at least one lap, a row carrying that
driver's minimal lap time with its lap number and compound, and the table
is sorted ascending by lap time. -/
theorem lapTimes_fastest_table (s : Session) (sel : List String) (L : List Lap)
    (out : LapTimesOut) (hl : s.laps = some L) (hL : L ≠ []) (hsel : sel ≠ [])
    (hout : displayLapTimes s sel = Except.ok out) :
    (∀ d ∈ sel, pickDriver L d ≠ [] →
      ∃ r ∈ out.fastestRows, ∃ lap ∈ pickDriver L d,
        (∃ a, s.getDriver d = some { abbreviation := a } ∧ r.driver = a) ∧
        r.lapTime = lap.lapTime ∧ r.lapNumber = lap.lapNumber ∧
        r.compound = lap.compound ∧
        ∀ x ∈ pickDriver L d, lap.lapTime ≤ x.lapTime) ∧
    out.fastestRows.Pairwise (fun a b => a.lapTime ≤ b.lapTime) := by
  have hLe : L.isEmpty = false := by
    cases L with
    | nil => exact absurd rfl hL
    | cons a as => rfl
  have hse : sel.isEmpty = false := by
    cases sel with
    | nil => exact absurd rfl hsel
    | cons a as => rfl
  unfold displayLapTimes at hout
  rw [hl] at hout
  simp only [hLe, hse, Bool.false_eq_true, if_false] at hout
  split at hout
  · cases hout
  · rename_i series hseries
    split at hout
    · cases hout
    · rename_i rows hr
      injection hout with hout
      subst hout
      constructor
      · intro d hd hne
        obtain ⟨l0, ls0, hcons⟩ : ∃ l0 ls0, pickDriver L d = l0 :: ls0 := by
          cases hpd : pickDriver L d with
          | nil => exact absurd hpd hne
          | cons a as => exact ⟨a, as, rfl⟩
        obtain ⟨lap, hpf⟩ : ∃ lap, pickFastest (pickDriver L d) = some lap := by
          rw [hcons]
          exact ⟨_, rfl⟩
        rcases fastestRowsFor_mem s L sel rows hr d hd lap hpf with ⟨a, hga, hmem⟩
        rcases pickFastest_spec (pickDriver L d) lap hpf with ⟨hlap, hmin⟩
        exact ⟨{ driver := a, lapTime := lap.lapTime, lapNumber := lap.lapNumber,
                 compound := lap.compound },
               (mem_sortByLapTime _ rows).mpr hmem, lap, hlap,
               ⟨a, hga, rfl⟩, rfl, rfl, rfl, hmin⟩
      · exact sortByLapTime_sorted rows

/-- C2 witness: laps of 90.2s, 88.5s and 91.0s are reported with the 88.5s
lap, its lap number 2 and its compound. -/
theorem lapTimes_fastest_table_witness :
    exFastSession.laps = some exFastLaps ∧ exFastLaps ≠ [] ∧
    (["VER"] : List String) ≠ [] ∧
    displayLapTimes exFastSession ["VER"] = Except.ok exFastOut ∧
    exFastOut.fastestRows =
      [{ driver := "VER", lapTime := mkRat 885 10, lapNumber := 2, compound := "Medium" }] ∧
    (∀ d ∈ (["VER"] : List String), pickDriver exFastLaps d ≠ [] →
      ∃ r ∈ exFastOut.fastestRows, ∃ lap ∈ pickDriver exFastLaps d,
        (∃ a, exFastSession.getDriver d = some { abbreviation := a } ∧ r.driver = a) ∧
        r.lapTime = lap.lapTime ∧ r.lapNumber = lap.lapNumber ∧
        r.compound = lap.compound ∧
        ∀ x ∈ pickDriver exFastLaps d, lap.lapTime ≤ x.lapTime) :=
  ⟨rfl, by decide, by decide, by rfl, rfl,
    (lapTimes_fastest_table exFastSession ["VER"] exFastLaps exFastOut rfl
      (by decide) (by decide) (by rfl)).1⟩

/-! ## Theorems: position-change view (C7) -/

/-- The series built for a driver keeps that loop driver as its key. -/
theorem posSeriesOne_drv (s : Session) (d : String) (l : Lap) (ls : List Lap) :
    (posSeriesOne s d l ls).drv = d := rfl

/-- When either lookup fails the series falls back to gray and to the raw
row identifier. -/
theorem posSeriesOne_fallback (s : Session) (d : String) (l : Lap) (ls : List Lap)
    (h : s.driverColor l.driver = none ∨ s.getDriver d = none) :
    (posSeriesOne s d l ls).color = "#808080" ∧ (posSeriesOne s d l ls).name = l.driver := by
  rcases h with h | h
  · simp [posSeriesOne, h]
  · cases hc : s.driverColor l.driver with
    | none => simp [posSeriesOne, hc]
    | some c => simp [posSeriesOne, hc, h]

/-- A driver absent from the remaining loop list owns none of its series. -/
theorem posSeriesFor_filter_not_mem (s : Session) (L : List Lap) (ds : List String)
    (d : String) (hd : d ∉ ds) :
    (posSeriesFor s L ds).filter (fun p => p.drv == d) = [] := by
  induction ds with
  | nil => rfl
  | cons x xs ih =>
    have hxd : x ≠ d := fun he => hd (he ▸ List.mem_cons_self x xs)
    have hd' : d ∉ xs := fun hm => hd (List.mem_cons_of_mem _ hm)
    unfold posSeriesFor
    cases hpx : pickDriver L x with
    | nil => exact ih hd'
    | cons y ys =>
      rw [List.filter_cons]
      have hb : ((posSeriesOne s x y ys).drv == d) = false := by
        rw [posSeriesOne_drv]
        exact beq_eq_false_iff_ne.mpr hxd
      simp [hb, ih hd']

/-- A driver with no laps owns none of the series. -/
theorem posSeriesFor_filter_empty (s : Session) (L : List Lap) (ds : List String)
    (d : String) (hp : pickDriver L d = []) :
    (posSeriesFor s L ds).filter (fun p => p.drv == d) = [] := by
  induction ds with
  | nil => rfl
  | cons x xs ih =>
    unfold posSeriesFor
    cases hpx : pickDriver L x with
    | nil => exact ih
    | cons y ys =>
      have hxd : x ≠ d := by
        intro he
        rw [he, hp] at hpx
        cases hpx
      rw [List.filter_cons]
      have hb : ((posSeriesOne s x y ys).drv == d) = false := by
        rw [posSeriesOne_drv]
        exact beq_eq_false_iff_ne.mpr hxd
      simp [hb, ih]

/-- A driver with laps owns exactly its own series. -/
theorem posSeriesFor_filter_mem (s : Session) (L : List Lap) (ds : List String)
    (d : String) (hd : d ∈ ds) (hnd : ds.Nodup) (l : Lap) (ls : List Lap)
    (hp : pickDriver L d = l :: ls) :
    (posSeriesFor s L ds).filter (fun p => p.drv == d) = [posSeriesOne s d l ls] := by
  induction ds with
  | nil => cases hd
  | cons x xs ih =>
    rcases List.nodup_cons.mp hnd with ⟨hx, hnd'⟩
    unfold posSeriesFor
    rcases List.mem_cons.mp hd with rfl | hdm
    · rw [hp, List.filter_cons]
      have hb : ((posSeriesOne s d l ls).drv == d) = true := by
        rw [posSeriesOne_drv]
        exact beq_self_eq_true d
      simp [hb, posSeriesFor_filter_not_mem s L xs d hx]
    · have hxd : x ≠ d := fun he => hx (he ▸ hdm)
      cases hpx : pickDriver L x with
      | nil => exact ih hdm hnd'
      | cons y ys =>
        rw [List.filter_cons]
        have hb : ((posSeriesOne s x y ys).drv == d) = false := by
          rw [posSeriesOne_drv]
          exact beq_eq_false_iff_ne.mpr hxd
        simp [hb, ih hdm hnd']

/-- Every lap selected for a driver carries that driver identifier. -/
theorem pickDriver_head_driver (L : List Lap) (d : String) (l : Lap) (ls : List Lap)
    (hp : pickDriver L d = l :: ls) : l.driver = d := by
  have hm : l ∈ pickDriver L d := by rw [hp]; exact List.mem_cons_self l ls
  have := List.of_mem_filter hm
  exact eq_of_beq this

/-- C7: in the position-change view, a driver with zero laps contributes no
series, and a driver with at least one lap contributes exactly one series,
which on lookup failure uses the fallback color and the raw driver
identifier as its name (the driver is never omitted). -/
theorem positionChanges_one_series_per_driver (s : Session) (L : List Lap)
    (hl : s.laps = some L) (hnd : s.drivers.Nodup) :
    ∀ d ∈ s.drivers,
      (pickDriver L d = [] →
        (displayPositionChanges s).series.filter (fun p => p.drv == d) = []) ∧
      (pickDriver L d ≠ [] →
        ∃ ser, (displayPositionChanges s).series.filter (fun p => p.drv == d) = [ser] ∧
          ((s.driverColor d = none ∨ s.getDriver d = none) →
            ser.color = "#808080" ∧ ser.name = d)) := by
  intro d hd
  cases L with
  | nil =>
    constructor
    · intro _
      simp [displayPositionChanges, hl]
    · intro hne
      exact absurd rfl hne
  | cons a as =>
    have hser : (displayPositionChanges s).series = posSeriesFor s (a :: as) s.drivers := by
      simp [displayPositionChanges, hl]
    constructor
    · intro hp
      rw [hser]
      exact posSeriesFor_filter_empty s (a :: as) s.drivers d hp
    · intro hne
      cases hp : pickDriver (a :: as) d with
      | nil => exact absurd hp hne
      | cons l ls =>
        refine ⟨posSeriesOne s d l ls, ?_, ?_⟩
        · rw [hser]
          exact posSeriesFor_filter_mem s (a :: as) s.drivers d hd hnd l ls hp
        · intro hfb
          have hld : l.driver = d := pickDriver_head_driver (a :: as) d l ls hp
          have hfb' : s.driverColor l.driver = none ∨ s.getDriver d = none := by
            rw [hld]
            exact hfb
          have := posSeriesOne_fallback s d l ls hfb'
          rw [hld] at this
          exact this

/-- C7 witness: HAM has laps but both lookups fail; LEC has no laps. -/
theorem positionChanges_one_series_per_driver_witness :
    exPosSession.laps = some exPosLaps ∧ exPosSession.drivers.Nodup ∧
    "HAM" ∈ exPosSession.drivers ∧ "LEC" ∈ exPosSession.drivers ∧
    (pickDriver exPosLaps "HAM" ≠ [] →
      ∃ ser, (displayPositionChanges exPosSession).series.filter (fun p => p.drv == "HAM") = [ser] ∧
        ((exPosSession.driverColor "HAM" = none ∨ exPosSession.getDriver "HAM" = none) →
          ser.color = "#808080" ∧ ser.name = "HAM")) ∧
    (pickDriver exPosLaps "LEC" = [] →
      (displayPositionChanges exPosSession).series.filter (fun p => p.drv == "LEC") = []) :=
  ⟨rfl, by decide, by decide, by decide,
    (positionChanges_one_series_per_driver exPosSession exPosLaps rfl (by decide)
      "HAM" (by decide)).2,
    (positionChanges_one_series_per_driver exPosSession exPosLaps rfl (by decide)
      "LEC" (by decide)).1⟩

end F1
